import Mathlib

/-!
Verification of the HYPEPACK PR orchestration core.

Shallow embedding of the pipeline code: the pure modules
(confidenceScorer, utilityClassifier, toneProfile, creativeBrief,
retry, determineDataSource, tagline/cta extraction) are translated
directly from the source; the orchestrator `runPipeline` is embedded as
a pure function over an environment of collaborator functions, each
returning `Except Err _` so that a collaborator rejection propagates
exactly as an awaited promise rejection does in the source.
-/

namespace Hypepack

abbrev Err := String

/-- JS truthiness for an optional string: `undefined`, `null` and `""` are falsy. -/
def jsTruthyS (o : Option String) : Bool :=
  match o with
  | some s => s ≠ ""
  | none => false

/-- JS `a || b` for an optional string `a` and a string default `b`. -/
def jsOr (a : Option String) (b : String) : String :=
  match a with
  | some s => if s = "" then b else s
  | none => b

/-- JS `toLowerCase` (ASCII range, covering every string the code builds). -/
def jsToLower (s : String) : String := String.mk (s.data.map Char.toLower)

/-- JS `toUpperCase` (ASCII range). -/
def jsToUpper (s : String) : String := String.mk (s.data.map Char.toUpper)

/-- JS `trim`: strip whitespace from both ends. -/
def jsTrim (s : String) : String :=
  String.mk (((s.data.dropWhile Char.isWhitespace).reverse.dropWhile
    Char.isWhitespace).reverse)

/-- JS `String.prototype.split` against a character class: chunks between
delimiter characters (empty chunks kept, as in JS). -/
def jsSplit (p : Char → Bool) (s : String) : List String :=
  (s.data.splitOnP p).map String.mk

-- ─── Data model (from src/src/types/job.types and dist job.types.d.ts) ───

inductive ResolutionSource
  | coingecko
  | dexscreener
  | user
  | fallback
  deriving DecidableEq, Repr, Fintype

inductive UtilityClass
  | protocol
  | culture
  | hybrid
  deriving DecidableEq, Repr, Fintype

def UtilityClass.str : UtilityClass → String
  | .protocol => "protocol"
  | .culture => "culture"
  | .hybrid => "hybrid"

inductive DataSource
  | website
  | thematic_only
  | mixed
  deriving DecidableEq, Repr, Fintype

structure SocialLinks where
  twitter : Option String := none
  telegram : Option String := none
  discord : Option String := none
  website : Option String := none
  deriving DecidableEq, Repr

def emptySocialLinks : SocialLinks := {}

structure TokenResolution where
  projectName : Option String := none
  description : Option String := none
  logoUrl : Option String := none
  contractAddress : Option String := none
  websiteUrl : Option String := none
  socialLinks : Option SocialLinks := none
  pairCreatedAt : Option Int := none
  resolutionSource : ResolutionSource
  deriving DecidableEq, Repr

structure WebsiteScrapeResult where
  extractedText : Option String := none
  found : Bool
  deriving DecidableEq, Repr

structure BrandColors where
  primary : String
  secondary : String
  deriving DecidableEq, Repr

structure LogoResult where
  finalLogoUrl : String
  brandColors : BrandColors
  deriving DecidableEq, Repr

structure CreativeBrief where
  projectName : String
  ticker : String
  utilityClass : UtilityClass
  oneLiner : String
  logoUrl : String
  brandColors : BrandColors
  tokenAgeSec : Option Int
  socialLinks : SocialLinks
  deriving DecidableEq, Repr

structure ToneProfile where
  utilityClass : UtilityClass
  intent : String
  theme : String
  profileName : String
  deriving DecidableEq, Repr

structure VisualThemes where
  mood : String
  color_cues : String
  lighting_style : String
  motion_style : String
  texture_keywords : List String
  clip1_prompt : String
  clip2_prompt : String
  clip3_prompt : String
  image_prompt : String
  deriving DecidableEq, Repr

structure PostGenerationResult where
  posts1 : String
  posts2 : String
  posts3 : String
  visualThemes : VisualThemes
  deriving DecidableEq, Repr

structure BannerResult where
  heroBannerUrl : String
  deriving DecidableEq, Repr

structure VideoResult where
  launchVideoUrl : String
  clipsSucceeded : Nat
  deriving DecidableEq, Repr

structure ConfidenceFactors where
  websiteFound : Bool
  officialLogo : Bool
  allClipsSucceeded : Bool
  noFallbacksUsed : Bool
  deriving DecidableEq, Repr

structure GenerateJobInput where
  ticker : Option String := none
  contractAddress : Option String := none
  intent : Option String := none
  theme : Option String := none
  deriving DecidableEq, Repr

structure GenerateJobOutput where
  hero_banner_url : String
  launch_video_url : String
  x_post_1 : String
  x_post_2 : String
  x_post_3 : String
  brand_colors : BrandColors
  tone_profile : String
  confidence_level : Nat
  generation_time_sec : Rat
  data_source : DataSource
  deriving DecidableEq, Repr

-- ─── confidenceScorer.js ───

/-- From `dist/modules/confidenceScorer.js`: start at 0, add 1 per true
factor, then `Math.max(1, score)`. -/
def computeConfidence (factors : ConfidenceFactors) : Nat :=
  let score : Nat := 0
  let score := if factors.websiteFound then score + 1 else score
  let score := if factors.officialLogo then score + 1 else score
  let score := if factors.allClipsSucceeded then score + 1 else score
  let score := if factors.noFallbacksUsed then score + 1 else score
  max 1 score

/-- Number of true factors, written from the spec's "count(true factors)". -/
def trueCount (a b c d : Bool) : Nat := a.toNat + b.toNat + c.toNat + d.toNat

-- ─── orchestrator.js: determineDataSource ───

/-- From `dist/core/orchestrator.js` lines 169-175. -/
def determineDataSource (websiteFound : Bool) (resolutionSource : ResolutionSource) : DataSource :=
  if websiteFound ∧ (resolutionSource = .coingecko ∨ resolutionSource = .dexscreener) then
    .website
  else if websiteFound = false ∧ resolutionSource = .fallback then
    .thematic_only
  else
    .mixed

-- ─── toneProfile.ts ───

def TWENTY_FOUR_HOURS_SEC : Int := 86400

/-- The static archetype table from `src/modules/toneProfile.ts`,
keyed `"utilityClass:intent:theme"`. -/
def PROFILE_NAMES : List (String × String) :=
  [("protocol:launch:minimalist", "The Institutional Reveal"),
   ("protocol:launch:cyberpunk", "The Genesis Protocol"),
   ("protocol:hype:cyberpunk", "The Builder's Signal"),
   ("protocol:hype:minimalist", "The Quiet Powerhouse"),
   ("protocol:stealth:cyberpunk", "The Shadow Architect"),
   ("protocol:stealth:minimalist", "The Silent Deploy"),
   ("protocol:engage:space", "The Frontier Builder"),
   ("protocol:engage:minimalist", "The Open Standard"),
   ("culture:launch:retro-arcade", "The Pixel Drop"),
   ("culture:launch:space", "The Cosmic Debut"),
   ("culture:hype:retro-arcade", "The Hype Machine"),
   ("culture:hype:space", "The Galactic Wave"),
   ("culture:stealth:retro-arcade", "The Underground Legend"),
   ("culture:stealth:space", "The Dark Horse"),
   ("culture:engage:space", "The Community Arc"),
   ("culture:engage:retro-arcade", "The Player One Alliance"),
   ("hybrid:launch:cyberpunk", "The Dual Signal"),
   ("hybrid:launch:minimalist", "The Crossover Event"),
   ("hybrid:hype:cyberpunk", "The Momentum Stack"),
   ("hybrid:hype:space", "The Orbital Push"),
   ("hybrid:stealth:retro-arcade", "The Hidden Gem"),
   ("hybrid:engage:space", "The Coalition Build")]

/-- From `toneProfile.ts` `resolveIntent`: a truthy user intent wins
(lowercased); else a known age under 24h resolves to "launch", anything
else to "hype". -/
def resolveIntent (userIntent : Option String) (tokenAgeSec : Option Int) : String :=
  if jsTruthyS userIntent then jsToLower (userIntent.getD "")
  else
    match tokenAgeSec with
    | some age => if age < TWENTY_FOUR_HOURS_SEC then "launch" else "hype"
    | none => "hype"

/-- From `toneProfile.ts` `resolveTheme`. -/
def resolveTheme (userTheme : Option String) (utilityClass : UtilityClass) : String :=
  if jsTruthyS userTheme then jsToLower (userTheme.getD "")
  else
    match utilityClass with
    | .protocol => "minimalist"
    | .culture => "retro-arcade"
    | .hybrid => "cyberpunk"

/-- JS `s.charAt(0).toUpperCase() + s.slice(1)` (ASCII case mapping). -/
def capFirst (s : String) : String :=
  match s.data with
  | [] => ""
  | c :: cs => String.mk (Char.toUpper c :: cs)

def profileKey (u : UtilityClass) (intent theme : String) : String :=
  u.str ++ ":" ++ intent ++ ":" ++ theme

/-- From `toneProfile.ts` `resolveProfileName`: table lookup, else
synthesize "The {UtilityClass} {Intent}". -/
def resolveProfileName (u : UtilityClass) (intent theme : String) : String :=
  match PROFILE_NAMES.find? (fun e => e.1 == profileKey u intent theme) with
  | some e => e.2
  | none => "The " ++ capFirst u.str ++ " " ++ capFirst intent

/-- From `toneProfile.ts` `resolveToneProfile`. -/
def resolveToneProfile (u : UtilityClass) (userIntent userTheme : Option String)
    (tokenAgeSec : Option Int) : ToneProfile :=
  let intent := resolveIntent userIntent tokenAgeSec
  let theme := resolveTheme userTheme u
  { utilityClass := u, intent := intent, theme := theme,
    profileName := resolveProfileName u intent theme }

-- ─── utilityClassifier.js ───

def PROTOCOL_SIGNALS : List String :=
  ["ai", "neural", "infrastructure", "protocol", "agent",
   "chain", "defi", "oracle", "layer", "rollup", "zk",
   "bridge", "swap", "dao", "governance", "staking",
   "validator", "node", "sdk", "api", "smart contract"]

def CULTURE_SIGNALS : List String :=
  ["meme", "community", "moon", "dog", "vibes",
   "pepe", "degen", "ape", "frog", "cat",
   "nft", "pfp", "wagmi", "gm", "fren",
   "shib", "wojak", "chad"]

/-- Does `hay` start with `needle`? -/
def startsWithChars (needle hay : List Char) : Bool :=
  match needle, hay with
  | [], _ => true
  | _ :: _, [] => false
  | a :: as, b :: bs => a == b && startsWithChars as bs

/-- Does `hay` contain `needle` as a contiguous run? -/
def hasSubChars (hay needle : List Char) : Bool :=
  startsWithChars needle hay ||
    match hay with
    | [] => false
    | _ :: tl => hasSubChars tl needle

/-- JS `text.includes(needle)`. -/
def containsSub (hay needle : String) : Bool := hasSubChars hay.data needle.data

def countHits (text : String) (signals : List String) : Nat :=
  (signals.filter (fun s => containsSub text s)).length

/-- From `dist/modules/utilityClassifier.js` `classifyUtility`, including the
source's no-op tie-break ternary (both branches "hybrid"). -/
def classifyUtility (description projectName : String) : UtilityClass :=
  let text := jsToLower (projectName ++ " " ++ description)
  let protocolHits := countHits text PROTOCOL_SIGNALS
  let cultureHits := countHits text CULTURE_SIGNALS
  if 0 < protocolHits ∧ 0 < cultureHits then
    (if cultureHits ≤ protocolHits then UtilityClass.hybrid else UtilityClass.hybrid)
  else if 0 < protocolHits then .protocol
  else if 0 < cultureHits then .culture
  else .hybrid

-- ─── Claim C7 ───

/-- C7: `classifyUtility` scans the lowercased concatenated name+description
against the two fixed keyword sets and returns "protocol" exactly when only
protocol keywords hit, "culture" exactly when only culture keywords hit, and
"hybrid" both when neither set hits and when both sets hit, regardless of
which count is larger. -/
theorem classifyUtility_spec (description projectName : String) :
    (classifyUtility description projectName = .protocol
      ↔ 0 < countHits (jsToLower (projectName ++ " " ++ description)) PROTOCOL_SIGNALS
        ∧ countHits (jsToLower (projectName ++ " " ++ description)) CULTURE_SIGNALS = 0)
    ∧ (classifyUtility description projectName = .culture
      ↔ countHits (jsToLower (projectName ++ " " ++ description)) PROTOCOL_SIGNALS = 0
        ∧ 0 < countHits (jsToLower (projectName ++ " " ++ description)) CULTURE_SIGNALS)
    ∧ (classifyUtility description projectName = .hybrid
      ↔ (countHits (jsToLower (projectName ++ " " ++ description)) PROTOCOL_SIGNALS = 0
          ∧ countHits (jsToLower (projectName ++ " " ++ description)) CULTURE_SIGNALS = 0)
        ∨ (0 < countHits (jsToLower (projectName ++ " " ++ description)) PROTOCOL_SIGNALS
          ∧ 0 < countHits (jsToLower (projectName ++ " " ++ description)) CULTURE_SIGNALS)) := by
  set pH := countHits (jsToLower (projectName ++ " " ++ description)) PROTOCOL_SIGNALS with hp
  set cH := countHits (jsToLower (projectName ++ " " ++ description)) CULTURE_SIGNALS with hc
  have hcl : classifyUtility description projectName =
      (if 0 < pH ∧ 0 < cH then
        (if cH ≤ pH then UtilityClass.hybrid else UtilityClass.hybrid)
      else if 0 < pH then .protocol
      else if 0 < cH then .culture
      else .hybrid) := rfl
  rw [hcl, ite_self]
  rcases Nat.eq_zero_or_pos pH with h1 | h1 <;>
    rcases Nat.eq_zero_or_pos cH with h2 | h2 <;>
      simp [h1, h2] <;> omega

-- ─── C6 helper lemmas: association-list lookup via find? ───

theorem find_key_of_mem {l : List (String × String)} {k : String} {v : String}
    (hnd : (l.map Prod.fst).Nodup) (hm : (k, v) ∈ l) :
    l.find? (fun e => e.1 == k) = some (k, v) := by
  induction l with
  | nil => cases hm
  | cons hd tl ih =>
    rw [List.map_cons, List.nodup_cons] at hnd
    rcases List.mem_cons.mp hm with heq | hmem
    · subst heq
      simp [List.find?]
    · have hne : hd.1 ≠ k := by
        intro heq
        exact hnd.1 (heq ▸ List.mem_map_of_mem Prod.fst hmem)
      rw [List.find?_cons_of_neg _ (by simpa using hne)]
      exact ih hnd.2 hmem

theorem find_key_of_not_mem {l : List (String × String)} {k : String}
    (hm : k ∉ l.map Prod.fst) :
    l.find? (fun e => e.1 == k) = none := by
  induction l with
  | nil => rfl
  | cons hd tl ih =>
    rw [List.map_cons, List.mem_cons] at hm
    push_neg at hm
    rw [List.find?_cons_of_neg _ (by simpa using Ne.symm hm.1)]
    exact ih hm.2

theorem profile_names_keys_nodup : (PROFILE_NAMES.map Prod.fst).Nodup := by
  decide

-- ─── Claim C6 ───

/-- C6: with no user theme, `resolveTheme` yields "minimalist" for protocol,
"retro-arcade" for culture and "cyberpunk" for hybrid; and for every resolved
(utilityClass, intent, theme) triple, `resolveProfileName` returns the static
table entry when the key is present and otherwise synthesizes
"The {UtilityClass} {Intent}" with each segment capitalized (identical inputs
trivially give identical names since the embedding is a pure function). -/
theorem toneProfile_resolution_spec :
    resolveTheme none .protocol = "minimalist"
    ∧ resolveTheme none .culture = "retro-arcade"
    ∧ resolveTheme none .hybrid = "cyberpunk"
    ∧ (∀ (u : UtilityClass) (i t name : String),
        (profileKey u i t, name) ∈ PROFILE_NAMES → resolveProfileName u i t = name)
    ∧ (∀ (u : UtilityClass) (i t : String),
        profileKey u i t ∉ PROFILE_NAMES.map Prod.fst →
        resolveProfileName u i t = "The " ++ capFirst u.str ++ " " ++ capFirst i) := by
  refine ⟨rfl, rfl, rfl, ?_, ?_⟩
  · intro u i t name hm
    unfold resolveProfileName
    rw [find_key_of_mem profile_names_keys_nodup hm]
  · intro u i t hm
    unfold resolveProfileName
    rw [find_key_of_not_mem hm]

/-- C6 witness: a table key resolves to its archetype name, and an absent key
synthesizes the capitalized dynamic name. -/
theorem toneProfile_resolution_spec_witness :
    resolveProfileName .protocol "launch" "minimalist" = "The Institutional Reveal"
    ∧ resolveProfileName .culture "stealth" "cyberpunk" = "The Culture Stealth" := by
  refine ⟨toneProfile_resolution_spec.2.2.2.1 .protocol "launch" "minimalist"
      "The Institutional Reveal" (by decide), ?_⟩
  exact (toneProfile_resolution_spec.2.2.2.2 .culture "stealth" "cyberpunk"
      (by decide)).trans (by decide)

-- ─── creativeBrief.js ───

/-- Sentence delimiters of the JS regex `/[.!?]/`. -/
def isSentenceDelim (c : Char) : Bool := c == '.' || c == '!' || c == '?'

/-- JS `text.split(/[.!?]/)[0]?.trim()` (the split always has a head). -/
def firstSentence (text : String) : String :=
  jsTrim ((jsSplit isSentenceDelim text).headD "")

/-- The fallback one-liner template literal of `creativeBrief.js`. -/
def briefTemplate (projectName : String) (u : UtilityClass) : String :=
  projectName ++ " — a " ++ u.str ++ " token on Base"

/-- The one-liner selection of `buildCreativeBrief`: first website sentence
when truthy and of length in (10,120], else the template. -/
def briefOneLiner (projectName : String) (u : UtilityClass)
    (website : WebsiteScrapeResult) : String :=
  if website.found ∧ jsTruthyS website.extractedText then
    let fs := firstSentence (website.extractedText.getD "")
    if fs ≠ "" ∧ 10 < fs.length ∧ fs.length ≤ 120 then fs
    else briefTemplate projectName u
  else briefTemplate projectName u

/-- The token-age computation of `buildCreativeBrief`:
`Math.floor((Date.now() - pairCreatedAt) / 1000)` behind a truthiness check. -/
def briefTokenAge (pairCreatedAt : Option Int) (now : Int) : Option Int :=
  match pairCreatedAt with
  | some ts => if ts ≠ 0 then some ((now - ts).fdiv 1000) else none
  | none => none

/-- From `dist/modules/creativeBrief.js` `buildCreativeBrief`; `now` stands
for `Date.now()` in milliseconds. -/
def buildCreativeBrief (ticker : String) (token : TokenResolution) (logo : LogoResult)
    (utilityClass : UtilityClass) (website : WebsiteScrapeResult) (now : Int) :
    CreativeBrief :=
  let projectName := jsOr token.projectName (jsToUpper ticker)
  { projectName := projectName, ticker := jsToUpper ticker,
    utilityClass := utilityClass,
    oneLiner := briefOneLiner projectName utilityClass website,
    logoUrl := logo.finalLogoUrl, brandColors := logo.brandColors,
    tokenAgeSec := briefTokenAge token.pairCreatedAt now,
    socialLinks := token.socialLinks.getD emptySocialLinks }

-- ─── Claim C9 ───

/-- C9 counterexample: the claim states that the fallback one-liner is the
templated string "<project> — a <utilityClass> token", but on a token with no
website the code produces "<project> — a <utilityClass> token on Base". -/
theorem buildCreativeBrief_counterexample :
    (buildCreativeBrief "foo" { resolutionSource := .fallback }
        { finalLogoUrl := "L", brandColors := { primary := "#1", secondary := "#2" } }
        .hybrid { found := false } 0).oneLiner
      = "FOO — a hybrid token on Base"
    ∧ (buildCreativeBrief "foo" { resolutionSource := .fallback }
        { finalLogoUrl := "L", brandColors := { primary := "#1", secondary := "#2" } }
        .hybrid { found := false } 0).oneLiner
      ≠ "FOO — a hybrid token" := by
  exact ⟨rfl, by decide⟩

/-- C9 (amended): `buildCreativeBrief` sets the one-liner to the trimmed
first sentence of the scraped website text exactly when that sentence's
length is within [11,120], and otherwise to the templated
"<project> — a <utilityClass> token on Base" string; it sets token age in
seconds from the pair-creation timestamp when available (truthy) and null
otherwise; and it copies brand colors and social links through unchanged. -/
theorem buildCreativeBrief_amended (ticker : String) (token : TokenResolution)
    (logo : LogoResult) (u : UtilityClass) (website : WebsiteScrapeResult) (now : Int) :
    (∀ t : String, website.found = true → website.extractedText = some t → t ≠ "" →
      ((11 ≤ (firstSentence t).length ∧ (firstSentence t).length ≤ 120 →
        (buildCreativeBrief ticker token logo u website now).oneLiner = firstSentence t)
      ∧ (¬(11 ≤ (firstSentence t).length ∧ (firstSentence t).length ≤ 120) →
        (buildCreativeBrief ticker token logo u website now).oneLiner
          = jsOr token.projectName (jsToUpper ticker) ++ " — a " ++ u.str
            ++ " token on Base")))
    ∧ (website.found = false →
      (buildCreativeBrief ticker token logo u website now).oneLiner
        = jsOr token.projectName (jsToUpper ticker) ++ " — a " ++ u.str
          ++ " token on Base")
    ∧ (∀ ts : Int, token.pairCreatedAt = some ts → ts ≠ 0 →
      (buildCreativeBrief ticker token logo u website now).tokenAgeSec
        = some ((now - ts).fdiv 1000))
    ∧ (token.pairCreatedAt = none →
      (buildCreativeBrief ticker token logo u website now).tokenAgeSec = none)
    ∧ (buildCreativeBrief ticker token logo u website now).brandColors
        = logo.brandColors
    ∧ (∀ sl : SocialLinks, token.socialLinks = some sl →
      (buildCreativeBrief ticker token logo u website now).socialLinks = sl) := by
  obtain ⟨et, fd⟩ := website
  refine ⟨?_, ?_, ?_, ?_, rfl, ?_⟩
  · intro t hfound htext hne
    simp only at hfound htext
    subst hfound htext
    have hx : (buildCreativeBrief ticker token logo u
        { extractedText := some t, found := true } now).oneLiner
        = briefOneLiner (jsOr token.projectName (jsToUpper ticker)) u
          { extractedText := some t, found := true } := rfl
    rw [hx]
    unfold briefOneLiner
    rw [if_pos (by exact ⟨rfl, by simp [jsTruthyS, hne]⟩)]
    simp only [Option.getD_some]
    constructor
    · intro hlen
      have hfs : firstSentence t ≠ "" := by
        intro h0
        rw [h0] at hlen
        exact absurd hlen.1 (by decide)
      rw [if_pos ⟨hfs, by omega, hlen.2⟩]
    · intro hlen
      rw [if_neg]
      · rfl
      · rintro ⟨h1, h2, h3⟩
        exact hlen ⟨by omega, h3⟩
  · intro hfound
    simp only at hfound
    subst hfound
    show briefOneLiner (jsOr token.projectName (jsToUpper ticker)) u
        { extractedText := et, found := false } = _
    unfold briefOneLiner
    rw [if_neg (by rintro ⟨h, -⟩; cases h)]
    rfl
  · intro ts hts hne
    show briefTokenAge token.pairCreatedAt now = _
    rw [hts]
    simp [briefTokenAge, hne]
  · intro hts
    show briefTokenAge token.pairCreatedAt now = none
    rw [hts]
    rfl
  · intro sl hsl
    show (token.socialLinks.getD emptySocialLinks) = sl
    rw [hsl]
    rfl

/-- C9 witness: a scraped sentence of in-range length is used verbatim, the
age is computed from a concrete timestamp, and colors pass through, all
obtained through the amended theorem at concrete inputs. -/
theorem buildCreativeBrief_amended_witness :
    (buildCreativeBrief "doge" { resolutionSource := .dexscreener, pairCreatedAt := some 5000 }
      { finalLogoUrl := "L", brandColors := { primary := "#1", secondary := "#2" } }
      .culture { extractedText := some "Much wow very coin. And more.", found := true }
      12000).oneLiner = "Much wow very coin"
    ∧ (buildCreativeBrief "doge" { resolutionSource := .dexscreener, pairCreatedAt := some 5000 }
      { finalLogoUrl := "L", brandColors := { primary := "#1", secondary := "#2" } }
      .culture { extractedText := some "Much wow very coin. And more.", found := true }
      12000).tokenAgeSec = some 7
    ∧ (buildCreativeBrief "doge" { resolutionSource := .dexscreener, pairCreatedAt := some 5000 }
      { finalLogoUrl := "L", brandColors := { primary := "#1", secondary := "#2" } }
      .culture { extractedText := some "Much wow very coin. And more.", found := true }
      12000).brandColors = { primary := "#1", secondary := "#2" } := by
  have h := buildCreativeBrief_amended "doge"
    { resolutionSource := .dexscreener, pairCreatedAt := some 5000 }
    { finalLogoUrl := "L", brandColors := { primary := "#1", secondary := "#2" } }
    .culture { extractedText := some "Much wow very coin. And more.", found := true }
    12000
  refine ⟨?_, ?_, h.2.2.2.2.1⟩
  · exact ((h.1 "Much wow very coin. And more." rfl rfl (by decide)).1
      (by decide)).trans (by decide)
  · exact (h.2.2.1 5000 rfl (by decide)).trans (by decide)

/-- C2: for every combination of the four ConfidenceFactors booleans,
`computeConfidence` returns `clamp(count of true factors, 1, 4)`: it equals
the count when at least one factor is true, equals 1 when all are false, is
always in [1,4], and flipping any single factor from false to true never
decreases it. -/
theorem computeConfidence_clamp_spec :
    (∀ a b c d : Bool,
      computeConfidence ⟨a, b, c, d⟩ = min 4 (max 1 (trueCount a b c d)))
    ∧ (∀ a b c d : Bool, 1 ≤ trueCount a b c d →
      computeConfidence ⟨a, b, c, d⟩ = trueCount a b c d)
    ∧ computeConfidence ⟨false, false, false, false⟩ = 1
    ∧ (∀ a b c d : Bool,
      1 ≤ computeConfidence ⟨a, b, c, d⟩ ∧ computeConfidence ⟨a, b, c, d⟩ ≤ 4)
    ∧ (∀ a b c d : Bool,
      computeConfidence ⟨a, b, c, d⟩ ≤ computeConfidence ⟨true, b, c, d⟩
      ∧ computeConfidence ⟨a, b, c, d⟩ ≤ computeConfidence ⟨a, true, c, d⟩
      ∧ computeConfidence ⟨a, b, c, d⟩ ≤ computeConfidence ⟨a, b, true, d⟩
      ∧ computeConfidence ⟨a, b, c, d⟩ ≤ computeConfidence ⟨a, b, c, true⟩) := by
  refine ⟨?_, ?_, ?_, ?_, ?_⟩ <;> decide

/-- C2 witness: the score on a concrete factor combination with two true
factors, obtained through the main theorem. -/
theorem computeConfidence_clamp_spec_witness :
    computeConfidence ⟨true, false, true, false⟩ = trueCount true false true false :=
  computeConfidence_clamp_spec.2.1 true false true false (by decide)

-- ─── utils/retry (withRetry) ───

/-- Observable trace of one `withRetry` run: the value returned or error
thrown, how many times the operation was invoked, and the backoff delays
(ms) waited between invocations. -/
structure RetryTrace (T : Type) where
  result : Except Err T
  attemptsUsed : Nat
  delays : List Nat

/-- The options object of `utils/retry.ts`, with its defaults. -/
structure RetryOptions where
  maxRetries : Nat := 2
  baseDelayMs : Nat := 1000
  label : String := "operation"

/-- The loop of `withRetry` (from `src/utils/retry.ts`): `attempt` is the
current loop index, the second argument the remaining retries after it. Each
invocation's outcome is given by the oracle `fn` indexed by attempt number. -/
def retryFrom {T : Type} (fn : Nat → Except Err T) (baseDelayMs : Nat) :
    Nat → Nat → RetryTrace T
  | attempt, 0 =>
    match fn attempt with
    | Except.ok v => ⟨Except.ok v, 1, []⟩
    | Except.error e => ⟨Except.error e, 1, []⟩
  | attempt, remaining + 1 =>
    match fn attempt with
    | Except.ok v => ⟨Except.ok v, 1, []⟩
    | Except.error _ =>
      let rest := retryFrom fn baseDelayMs (attempt + 1) remaining
      ⟨rest.result, rest.attemptsUsed + 1, baseDelayMs * 2 ^ attempt :: rest.delays⟩

/-- `withRetry(fn, opts)` from `src/utils/retry.ts`. -/
def withRetry {T : Type} (fn : Nat → Except Err T) (opts : RetryOptions) : RetryTrace T :=
  retryFrom fn opts.baseDelayMs 0 opts.maxRetries

theorem retryFrom_attempts_le {T : Type} (fn : Nat → Except Err T) (base : Nat) :
    ∀ remaining attempt, (retryFrom fn base attempt remaining).attemptsUsed ≤ remaining + 1 := by
  intro remaining
  induction remaining with
  | zero =>
    intro a
    unfold retryFrom
    cases fn a <;> simp
  | succ n ih =>
    intro a
    unfold retryFrom
    cases fn a with
    | ok v => simp
    | error e =>
      simpa using Nat.succ_le_succ (ih (a + 1))

theorem retryFrom_attempts_pos {T : Type} (fn : Nat → Except Err T) (base : Nat) :
    ∀ remaining attempt, 1 ≤ (retryFrom fn base attempt remaining).attemptsUsed := by
  intro remaining
  cases remaining with
  | zero =>
    intro a
    unfold retryFrom
    cases fn a <;> simp
  | succ n =>
    intro a
    unfold retryFrom
    cases fn a <;> simp

theorem retryFrom_first_success {T : Type} (fn : Nat → Except Err T) (base : Nat) (v : T) :
    ∀ remaining attempt j, j ≤ remaining →
      (∀ i, i < j → ∃ er, fn (attempt + i) = Except.error er) →
      fn (attempt + j) = Except.ok v →
      (retryFrom fn base attempt remaining).result = Except.ok v
      ∧ (retryFrom fn base attempt remaining).attemptsUsed = j + 1 := by
  intro remaining
  induction remaining with
  | zero =>
    intro a j hj _ hok
    interval_cases j
    rw [Nat.add_zero] at hok
    unfold retryFrom
    rw [hok]
    exact ⟨rfl, rfl⟩
  | succ n ih =>
    intro a j hj herr hok
    cases j with
    | zero =>
      rw [Nat.add_zero] at hok
      unfold retryFrom
      rw [hok]
      exact ⟨rfl, rfl⟩
    | succ k =>
      obtain ⟨er, her⟩ := herr 0 (Nat.succ_pos k)
      rw [Nat.add_zero] at her
      unfold retryFrom
      rw [her]
      have hrest := ih (a + 1) k (Nat.le_of_succ_le_succ hj)
        (fun i hi => by
          obtain ⟨er2, her2⟩ := herr (i + 1) (Nat.succ_lt_succ hi)
          exact ⟨er2, by rw [← her2]; ring_nf⟩)
        (by rw [← hok]; ring_nf)
      simpa [hrest.1] using hrest.2

theorem retryFrom_all_fail {T : Type} (fn : Nat → Except Err T) (base : Nat)
    (e : Nat → Err) :
    ∀ remaining attempt,
      (∀ i, i ≤ remaining → fn (attempt + i) = Except.error (e (attempt + i))) →
      (retryFrom fn base attempt remaining).result
        = Except.error (e (attempt + remaining))
      ∧ (retryFrom fn base attempt remaining).attemptsUsed = remaining + 1 := by
  intro remaining
  induction remaining with
  | zero =>
    intro a h
    have h0 := h 0 (Nat.le_refl 0)
    rw [Nat.add_zero] at h0
    unfold retryFrom
    rw [h0]
    exact ⟨by rw [Nat.add_zero], rfl⟩
  | succ n ih =>
    intro a h
    have h0 := h 0 (Nat.zero_le _)
    rw [Nat.add_zero] at h0
    unfold retryFrom
    rw [h0]
    have hrest := ih (a + 1)
      (fun i hi => by
        have := h (i + 1) (Nat.succ_le_succ hi)
        rw [show a + (i + 1) = a + 1 + i by ring] at this
        exact this)
    refine ⟨?_, by simpa using hrest.2⟩
    have : a + 1 + n = a + (n + 1) := by ring
    rw [← this]
    simpa using hrest.1

theorem retryFrom_delays {T : Type} (fn : Nat → Except Err T) (base : Nat) :
    ∀ remaining attempt,
      (retryFrom fn base attempt remaining).delays
        = (List.range ((retryFrom fn base attempt remaining).attemptsUsed - 1)).map
            (fun i => base * 2 ^ (attempt + i)) := by
  intro remaining
  induction remaining with
  | zero =>
    intro a
    unfold retryFrom
    cases fn a <;> simp
  | succ n ih =>
    intro a
    unfold retryFrom
    cases fn a with
    | ok v => simp
    | error e =>
      simp only
      have hpos := retryFrom_attempts_pos fn base n (a + 1)
      obtain ⟨m, hm⟩ := Nat.exists_eq_add_of_le hpos
      rw [ih (a + 1), hm]
      simp only [Nat.add_sub_cancel_left, Nat.succ_sub_one]
      rw [show 1 + m = m + 1 by ring, List.range_succ_eq_map]
      simp only [List.map_cons, List.map_map]
      refine congrArg₂ _ (by rw [Nat.add_zero]) ?_
      refine List.map_congr_left ?_
      intro i hi
      simp only [Function.comp]
      rw [Nat.succ_eq_add_one]
      ring_nf

-- ─── Claim C8 ───

/-- C8: `withRetry` invokes the operation at most maxRetries + 1 times,
returns the first successful result without further invocations, waits
baseDelay × 2^attempt before retry attempt+1 (the delay schedule is exactly
the geometric sequence over the performed retries), propagates the last error
when every invocation fails, and the option defaults are maxRetries = 2 and
baseDelay = 1000 ms. -/
theorem withRetry_contract {T : Type} (fn : Nat → Except Err T) (opts : RetryOptions) :
    (withRetry fn opts).attemptsUsed ≤ opts.maxRetries + 1
    ∧ (∀ j v, j ≤ opts.maxRetries →
        (∀ i, i < j → ∃ er, fn i = Except.error er) →
        fn j = Except.ok v →
        (withRetry fn opts).result = Except.ok v
        ∧ (withRetry fn opts).attemptsUsed = j + 1)
    ∧ (withRetry fn opts).delays
        = (List.range ((withRetry fn opts).attemptsUsed - 1)).map
            (fun i => opts.baseDelayMs * 2 ^ i)
    ∧ (∀ e : Nat → Err, (∀ i, i ≤ opts.maxRetries → fn i = Except.error (e i)) →
        (withRetry fn opts).result = Except.error (e opts.maxRetries)
        ∧ (withRetry fn opts).attemptsUsed = opts.maxRetries + 1)
    ∧ ({} : RetryOptions).maxRetries = 2 ∧ ({} : RetryOptions).baseDelayMs = 1000 := by
  refine ⟨retryFrom_attempts_le fn opts.baseDelayMs opts.maxRetries 0, ?_, ?_, ?_, rfl, rfl⟩
  · intro j v hj herr hok
    exact retryFrom_first_success fn opts.baseDelayMs v opts.maxRetries 0 j hj
      (by simpa using herr) (by simpa using hok)
  · have h := retryFrom_delays fn opts.baseDelayMs opts.maxRetries 0
    simpa using h
  · intro e he
    have h := retryFrom_all_fail fn opts.baseDelayMs e opts.maxRetries 0
      (by simpa using he)
    simpa using h

/-- C8 witness: an operation failing once then succeeding, run with the
default policy, is invoked exactly twice and returns the success. -/
theorem withRetry_contract_witness :
    (withRetry (fun i => if i = 0 then Except.error "boom" else Except.ok 7) {}).result
      = Except.ok 7
    ∧ (withRetry (fun i => if i = 0 then Except.error "boom" else Except.ok 7) {}).attemptsUsed
      = 2 :=
  (withRetry_contract (fun i => if i = 0 then Except.error "boom" else Except.ok 7)
    {}).2.1 1 7 (by decide)
    (fun i hi => ⟨"boom", by interval_cases i; rfl⟩) rfl

-- ─── Claim C4 ───

/-- C4: `determineDataSource` returns "website" iff the website was found and
the resolution source is a primary source (coingecko or dexscreener),
"thematic_only" iff no website and full fallback, and "mixed" in every other
case. -/
theorem determineDataSource_spec :
    ∀ (w : Bool) (r : ResolutionSource),
      (determineDataSource w r = .website
        ↔ w = true ∧ (r = .coingecko ∨ r = .dexscreener))
      ∧ (determineDataSource w r = .thematic_only
        ↔ w = false ∧ r = .fallback)
      ∧ (determineDataSource w r = .mixed
        ↔ ¬(w = true ∧ (r = .coingecko ∨ r = .dexscreener))
          ∧ ¬(w = false ∧ r = .fallback)) := by
  decide

-- ─── utils/timers + the orchestrator's rounding ───

/-- Floor of a rational (den is positive, so `fdiv` is the floor). -/
def ratFloor (q : Rat) : Int := q.num.fdiv q.den

/-- JS `Math.round`: round half toward positive infinity. -/
def jsRound (q : Rat) : Int := ratFloor (q + (1 : Rat) / 2)

/-- The orchestrator's `Math.round(generationTimeSec * 100) / 100`. -/
def roundTo2 (q : Rat) : Rat := ((jsRound (q * 100) : Int) : Rat) / 100

-- ─── orchestrator.js: tagline / CTA extraction ───

/-- Delimiters of the JS regex `/[.!?\n]/` used by `extractCta`. -/
def isCtaDelim (c : Char) : Bool := c == '.' || c == '!' || c == '?' || c == '\n'

/-- From `dist/core/orchestrator.js` `extractTagline`. -/
def extractTagline (firstPost ticker : String) : String :=
  let sentence := jsTrim ((jsSplit isSentenceDelim firstPost).headD "")
  if sentence ≠ "" ∧ 10 < sentence.length ∧ sentence.length ≤ 80 then sentence
  else "$" ++ jsToUpper ticker ++ " — The Next Chapter"

/-- From `dist/core/orchestrator.js` `extractCta`. -/
def extractCta (firstPost ticker : String) : String :=
  let lines := ((jsSplit isCtaDelim firstPost).map jsTrim).filter (fun l => l ≠ "")
  match lines.find? (fun l => decide (5 < l.length) && decide (l.length ≤ 50)) with
  | some short => short
  | none => "$" ++ jsToUpper ticker

-- ─── orchestrator.js: runPipeline over collaborator oracles ───

/-- The confidence factor `allClipsSucceeded` exactly as the orchestrator
computes it: `videoResult.clipsSucceeded === 2`. -/
def allClipsFactor (v : VideoResult) : Bool := v.clipsSucceeded == 2

/-- Collaborator environment: one function per awaited remote stage, each
returning `Except Err _` so that a promise rejection propagates exactly as
in the source (which has no try/catch in `runPipeline`). `now` is
`Date.now()` and `elapsedSec` the wall-clock total the timer reports. -/
structure Env where
  resolveToken : Option String → Option String → Except Err TokenResolution
  scrapeWebsite : Option String → Except Err WebsiteScrapeResult
  manageLogo : String → Option String → Except Err LogoResult
  generatePosts : CreativeBrief → ToneProfile → WebsiteScrapeResult →
    Except Err PostGenerationResult
  generateBanner : String → VisualThemes → LogoResult → String → CreativeBrief →
    ToneProfile → Except Err BannerResult
  generateVideo : String → VisualThemes → LogoResult → String → CreativeBrief →
    ToneProfile → String → Except Err VideoResult
  now : Int
  elapsedSec : Rat

/-- Everything `runPipeline` accumulates before the banner/video fan-out
(stages 1.1 through 3.1 of the source). -/
structure StageData where
  token : TokenResolution
  website : WebsiteScrapeResult
  ticker : String
  logo : LogoResult
  officialLogo : Bool
  brief : CreativeBrief
  tone : ToneProfile
  posts : PostGenerationResult
  tagline : String
  ctaText : String
  fallbacks1 : Bool

/-- Stages 1.1-3.1 of `runPipeline`: token resolution, website scrape, logo
management, utility classification, creative brief, tone profile, posts, and
tagline/CTA extraction, sequenced exactly as in the source. -/
def stageData (env : Env) (input : GenerateJobInput) : Except Err StageData :=
  match env.resolveToken input.ticker input.contractAddress with
  | Except.error e => Except.error e
  | Except.ok token =>
    match env.scrapeWebsite token.websiteUrl with
    | Except.error e => Except.error e
    | Except.ok website =>
      let ticker := jsOr input.ticker "TOKEN"
      match env.manageLogo ticker token.logoUrl with
      | Except.error e => Except.error e
      | Except.ok logo =>
        let officialLogo := jsTruthyS token.logoUrl
          && (token.resolutionSource == .coingecko
              || token.resolutionSource == .dexscreener)
        let description := jsOr website.extractedText (jsOr token.description "")
        let projectName := jsOr token.projectName ticker
        let utilityClass := classifyUtility description projectName
        let brief := buildCreativeBrief ticker token logo utilityClass website env.now
        let tone := resolveToneProfile utilityClass input.intent input.theme
          brief.tokenAgeSec
        match env.generatePosts brief tone website with
        | Except.error e => Except.error e
        | Except.ok posts =>
          Except.ok
            { token := token, website := website, ticker := ticker, logo := logo,
              officialLogo := officialLogo, brief := brief, tone := tone,
              posts := posts,
              tagline := extractTagline posts.posts1 ticker,
              ctaText := extractCta posts.posts1 ticker,
              fallbacks1 := token.resolutionSource == .fallback }

/-- The FINAL section of `runPipeline`: confidence factors, data source and
output assembly (including the `clipsSucceeded < 2` fallback flag set in the
video branch of the `Promise.all`). -/
def assembleOutput (d : StageData) (bannerResult : BannerResult)
    (videoResult : VideoResult) (elapsedSec : Rat) : GenerateJobOutput :=
  let fallbacksUsed := d.fallbacks1 || decide (videoResult.clipsSucceeded < 2)
  let factors : ConfidenceFactors :=
    { websiteFound := d.website.found, officialLogo := d.officialLogo,
      allClipsSucceeded := allClipsFactor videoResult,
      noFallbacksUsed := !fallbacksUsed }
  { hero_banner_url := bannerResult.heroBannerUrl,
    launch_video_url := videoResult.launchVideoUrl,
    x_post_1 := d.posts.posts1, x_post_2 := d.posts.posts2, x_post_3 := d.posts.posts3,
    brand_colors := d.logo.brandColors,
    tone_profile := d.tone.profileName,
    confidence_level := computeConfidence factors,
    generation_time_sec := roundTo2 elapsedSec,
    data_source := determineDataSource d.website.found d.token.resolutionSource }

/-- `runPipeline` with the per-run video result also exposed (the source
logs it and feeds it into the confidence factors). The banner/video
`Promise.all` is sequenced banner-then-video; both must resolve before the
output is assembled, and a rejection of either propagates. -/
def runPipelineFull (env : Env) (input : GenerateJobInput) :
    Except Err (GenerateJobOutput × VideoResult) :=
  Except.bind (stageData env input) (fun d =>
    Except.bind (env.generateBanner d.ticker d.posts.visualThemes d.logo d.tagline
        d.brief d.tone) (fun bannerResult =>
      Except.bind (env.generateVideo d.ticker d.posts.visualThemes d.logo
          d.logo.finalLogoUrl d.brief d.tone d.ctaText) (fun videoResult =>
        Except.ok (assembleOutput d bannerResult videoResult env.elapsedSec,
          videoResult))))

/-- The single entry point `runPipeline(input)`. -/
def runPipeline (env : Env) (input : GenerateJobInput) : Except Err GenerateJobOutput :=
  (runPipelineFull env input).map Prod.fst

-- ─── bannerGenerator.js: generateBanner internals (for C1) ───

/-- Per-run outcomes of the remote calls `generateBanner` makes. -/
structure BannerEnv where
  dalle : Except Err String
  fallbackBackground : Except Err String
  shotstack : String → Except Err String
  finalize : String → Except Err String

/-- From `dist/modules/bannerGenerator.js` `generateBanner`: the DALL-E step
falls back to the gradient background (which itself uploads and can reject),
the Shotstack composite falls back to the background alone, but the final
download/resize/upload step `finalizeAndUpload` is NOT wrapped in a
try/catch — its rejection propagates out of `generateBanner`. -/
def generateBannerStage (benv : BannerEnv) : Except Err BannerResult :=
  let bg := match benv.dalle with
    | Except.ok u => Except.ok u
    | Except.error _ => benv.fallbackBackground
  match bg with
  | Except.error e => Except.error e
  | Except.ok bgUrl =>
    let compositeUrl := match benv.shotstack bgUrl with
      | Except.ok u => u
      | Except.error _ => bgUrl
    match benv.finalize compositeUrl with
    | Except.error e => Except.error e
    | Except.ok finalUrl => Except.ok { heroBannerUrl := finalUrl }

-- ─── Concrete collaborator environments ───

/-- The sentinel of `resolveToken`'s full-fallback branch. -/
def fallbackToken : TokenResolution := { resolutionSource := .fallback }

/-- `scrapeWebsite`'s degraded result. -/
def notFoundSite : WebsiteScrapeResult := { found := false }

/-- `manageLogo`'s placeholder result (placeholder logo, default palette). -/
def placeholderLogo : LogoResult :=
  { finalLogoUrl := "placeholder",
    brandColors := { primary := "#6366f1", secondary := "#8b5cf6" } }

def themes0 : VisualThemes :=
  { mood := "", color_cues := "", lighting_style := "", motion_style := "",
    texture_keywords := [], clip1_prompt := "", clip2_prompt := "",
    clip3_prompt := "", image_prompt := "" }

/-- `generatePosts`'s templated-fallback shape. -/
def fallbackPosts : PostGenerationResult :=
  { posts1 := "", posts2 := "", posts3 := "", visualThemes := themes0 }

def inputDoge : GenerateJobInput := { ticker := some "DOGE" }

/-- Every collaborator resolves, but each on its degraded path: token
resolution fell back, no website, placeholder logo, fallback posts and
banner, zero video clips. -/
def envAllDegraded : Env :=
  { resolveToken := fun _ _ => Except.ok fallbackToken,
    scrapeWebsite := fun _ => Except.ok notFoundSite,
    manageLogo := fun _ _ => Except.ok placeholderLogo,
    generatePosts := fun _ _ _ => Except.ok fallbackPosts,
    generateBanner := fun _ _ _ _ _ _ => Except.ok { heroBannerUrl := "fallback-banner" },
    generateVideo := fun _ _ _ _ _ _ _ =>
      Except.ok { launchVideoUrl := "fallback-video", clipsSucceeded := 0 },
    now := 0, elapsedSec := 0 }

/-- Like `envAllDegraded`, except the banner stage runs the source's
`generateBanner` with every remote call failing — including the unguarded
`finalizeAndUpload` upload. -/
def envBannerUploadFails : Env :=
  { envAllDegraded with
    generateBanner := fun _ _ _ _ _ _ =>
      generateBannerStage
        { dalle := Except.error "dalle down",
          fallbackBackground := Except.ok "gradient-bg",
          shotstack := fun _ => Except.error "shotstack down",
          finalize := fun _ => Except.error "upload failed" } }

-- ─── Claim C1 ───

/-- C1: contrary to the claim (and to the orchestrator's own "Never throws
to caller" comment), `runPipeline` propagates a rejection when the banner
stage's final `finalizeAndUpload` upload fails, because that step is not
wrapped in a try/catch and `runPipeline` has none either; when every
collaborator instead resolves on its degraded path, the output does have
confidence level 1 and data source "thematic_only" as the claim states. -/
theorem pipeline_total_bug :
    runPipeline envBannerUploadFails inputDoge = Except.error "upload failed"
    ∧ (runPipeline envAllDegraded inputDoge).map
        (fun o => (o.confidence_level, o.data_source))
      = Except.ok (1, DataSource.thematic_only) :=
  ⟨rfl, rfl⟩

-- ─── Claim C3 ───

/-- Modelled from the spec: the implementation of `generateVideo`
(`videoGenerator.js`) is not under src/; per the spec the stage attempts 2-3
clips and reports `clipsSucceeded ∈ [0, total clips attempted]`. -/
structure SpecVideoRun where
  attempted : Nat
  clipsSucceeded : Nat
  launchVideoUrl : String
  attempted_range : attempted = 2 ∨ attempted = 3
  succeeded_le : clipsSucceeded ≤ attempted

/-- The `VideoResult` such a run hands to the orchestrator. -/
def SpecVideoRun.result (r : SpecVideoRun) : VideoResult :=
  { launchVideoUrl := r.launchVideoUrl, clipsSucceeded := r.clipsSucceeded }

/-- A three-clip run in which every clip succeeded. -/
def threeClipRun : SpecVideoRun :=
  { attempted := 3, clipsSucceeded := 3, launchVideoUrl := "v",
    attempted_range := Or.inr rfl, succeeded_le := Nat.le_refl 3 }

/-- C3 counterexample: on a run that attempted 3 clips and succeeded on all
3, the orchestrator's factor `clipsSucceeded === 2` is false although
clipsSucceeded equals the total number of clips attempted. -/
theorem allClipsFactor_counterexample :
    threeClipRun.clipsSucceeded = threeClipRun.attempted
    ∧ allClipsFactor threeClipRun.result = false :=
  ⟨rfl, rfl⟩

/-- C3 (amended): the `allClipsSucceeded` factor computed by the
orchestrator is true exactly when `clipsSucceeded = 2`; this coincides with
"all clips succeeded" exactly on runs that attempted 2 clips (as the
shipped videoGenerator declaration documents), not on 3-clip runs. -/
theorem allClipsFactor_amended (r : SpecVideoRun) :
    (allClipsFactor r.result = true ↔ r.clipsSucceeded = 2)
    ∧ (r.attempted = 2 →
      (allClipsFactor r.result = true ↔ r.clipsSucceeded = r.attempted)) := by
  constructor
  · simp [allClipsFactor, SpecVideoRun.result]
  · intro h2
    rw [h2]
    simp [allClipsFactor, SpecVideoRun.result]

/-- C3 witness: a fully successful two-clip run makes the factor true,
through the amended theorem. -/
theorem allClipsFactor_amended_witness :
    allClipsFactor (SpecVideoRun.result
      { attempted := 2, clipsSucceeded := 2, launchVideoUrl := "v2",
        attempted_range := Or.inl rfl, succeeded_le := Nat.le_refl 2 }) = true
    ↔ (SpecVideoRun.clipsSucceeded
      { attempted := 2, clipsSucceeded := 2, launchVideoUrl := "v2",
        attempted_range := Or.inl rfl, succeeded_le := Nat.le_refl 2 })
      = (SpecVideoRun.attempted
      { attempted := 2, clipsSucceeded := 2, launchVideoUrl := "v2",
        attempted_range := Or.inl rfl, succeeded_le := Nat.le_refl 2 }) :=
  (allClipsFactor_amended
    { attempted := 2, clipsSucceeded := 2, launchVideoUrl := "v2",
      attempted_range := Or.inl rfl, succeeded_le := Nat.le_refl 2 }).2 rfl

-- ─── Claim C10 ───

abbrev BannerGen := String → VisualThemes → LogoResult → String → CreativeBrief →
  ToneProfile → Except Err BannerResult

theorem except_bind_ok {α β : Type} (a : α) (f : α → Except Err β) :
    Except.bind (Except.ok a) f = f a := rfl

theorem except_bind_error {α β : Type} (e : Err) (f : α → Except Err β) :
    Except.bind (Except.error e : Except Err α) f = Except.error e := rfl

/-- C10: the video stage's output is independent of the banner stage's
output: two runs whose collaborators agree everywhere except in
`generateBanner` produce the identical VideoResult (hence identical
clipsSucceeded) and identical launch_video_url, because `runPipeline` passes
`logo.finalLogoUrl`, not the banner URL, to `generateVideo`. -/
theorem video_independent_of_banner (env : Env) (g g' : BannerGen)
    (input : GenerateJobInput) (p p' : GenerateJobOutput × VideoResult)
    (h : runPipelineFull { env with generateBanner := g } input = Except.ok p)
    (h' : runPipelineFull { env with generateBanner := g' } input = Except.ok p') :
    p.2 = p'.2 ∧ p.1.launch_video_url = p'.1.launch_video_url := by
  unfold runPipelineFull at h h'
  rw [show stageData { env with generateBanner := g } input
      = stageData env input from rfl] at h
  rw [show stageData { env with generateBanner := g' } input
      = stageData env input from rfl] at h'
  cases hd : stageData env input with
  | error e =>
    rw [hd, except_bind_error] at h
    exact absurd h (fun hx => Except.noConfusion hx)
  | ok d =>
    rw [hd, except_bind_ok] at h h'
    rw [show ({ env with generateBanner := g } : Env).generateBanner = g from rfl] at h
    rw [show ({ env with generateBanner := g' } : Env).generateBanner = g' from rfl] at h'
    rw [show ({ env with generateBanner := g } : Env).generateVideo
        = env.generateVideo from rfl] at h
    rw [show ({ env with generateBanner := g' } : Env).generateVideo
        = env.generateVideo from rfl] at h'
    rw [show ({ env with generateBanner := g } : Env).elapsedSec
        = env.elapsedSec from rfl] at h
    rw [show ({ env with generateBanner := g' } : Env).elapsedSec
        = env.elapsedSec from rfl] at h'
    cases hb : g d.ticker d.posts.visualThemes d.logo d.tagline d.brief d.tone with
    | error e =>
      rw [hb, except_bind_error] at h
      exact absurd h (fun hx => Except.noConfusion hx)
    | ok b =>
      rw [hb, except_bind_ok] at h
      cases hb' : g' d.ticker d.posts.visualThemes d.logo d.tagline d.brief d.tone with
      | error e =>
        rw [hb', except_bind_error] at h'
        exact absurd h' (fun hx => Except.noConfusion hx)
      | ok b' =>
        rw [hb', except_bind_ok] at h'
        cases hv : env.generateVideo d.ticker d.posts.visualThemes d.logo
            d.logo.finalLogoUrl d.brief d.tone d.ctaText with
        | error e =>
          rw [hv, except_bind_error] at h
          exact absurd h (fun hx => Except.noConfusion hx)
        | ok v =>
          rw [hv, except_bind_ok] at h h'
          injection h with h1
          injection h' with h2
          rw [← h1, ← h2]
          exact ⟨rfl, rfl⟩

def gA : BannerGen := fun _ _ _ _ _ _ => Except.ok { heroBannerUrl := "B1" }

def gB : BannerGen := fun _ _ _ _ _ _ => Except.ok { heroBannerUrl := "B2" }

def dummyOutput : GenerateJobOutput :=
  { hero_banner_url := "", launch_video_url := "", x_post_1 := "", x_post_2 := "",
    x_post_3 := "", brand_colors := { primary := "", secondary := "" },
    tone_profile := "", confidence_level := 0, generation_time_sec := 0,
    data_source := .mixed }

def pairA : GenerateJobOutput × VideoResult :=
  (runPipelineFull { envAllDegraded with generateBanner := gA } inputDoge).toOption.getD
    (dummyOutput, { launchVideoUrl := "", clipsSucceeded := 0 })

def pairB : GenerateJobOutput × VideoResult :=
  (runPipelineFull { envAllDegraded with generateBanner := gB } inputDoge).toOption.getD
    (dummyOutput, { launchVideoUrl := "", clipsSucceeded := 0 })

/-- C10 witness: two concrete runs differing only in the banner URL they
generate share their VideoResult and launch_video_url. -/
theorem video_independent_of_banner_witness :
    pairA.2 = pairB.2 ∧ pairA.1.launch_video_url = pairB.1.launch_video_url :=
  video_independent_of_banner envAllDegraded gA gB inputDoge pairA pairB rfl rfl

-- ─── Claim C5 ───

/-- C5: a (truthy) user-supplied intent is always used (lowercased),
independent of token age; with no user intent, a known age strictly below
86,400 s resolves to "launch" and any other age (≥ 86,400 or unknown)
resolves to "hype". -/
theorem resolveIntent_spec :
    (∀ (s : String) (age : Option Int), s ≠ "" →
      resolveIntent (some s) age = jsToLower s)
    ∧ (∀ age : Int, age < 86400 → resolveIntent none (some age) = "launch")
    ∧ (∀ age : Int, 86400 ≤ age → resolveIntent none (some age) = "hype")
    ∧ resolveIntent none none = "hype" := by
  refine ⟨?_, ?_, ?_, rfl⟩
  · intro s age hs
    simp [resolveIntent, jsTruthyS, hs]
  · intro age h
    simp [resolveIntent, jsTruthyS, TWENTY_FOUR_HOURS_SEC, h]
  · intro age h
    simp [resolveIntent, jsTruthyS, TWENTY_FOUR_HOURS_SEC, not_lt.mpr h]

/-- C5 witness: the spec's boundary instances 86,399 s → "launch",
86,401 s → "hype", and a user intent overriding a young age. -/
theorem resolveIntent_spec_witness :
    resolveIntent none (some 86399) = "launch"
    ∧ resolveIntent none (some 86401) = "hype"
    ∧ resolveIntent (some "hype") (some 10) = "hype" := by
  refine ⟨resolveIntent_spec.2.1 86399 (by decide),
          resolveIntent_spec.2.2.1 86401 (by decide), ?_⟩
  exact (resolveIntent_spec.1 "hype" (some 10) (by decide)).trans (by decide)

end Hypepack
